import Mathlib

/-!
Verification of the force-element library in `src/src/Force.cpp` (SimTK/Simbody
`GeneralForceSubsystem` elements).  The embedding works over exact rationals:
`Real` becomes `ℚ`, `Vec3` a record of three rationals, `Rotation`/`Mat33` a
3×3 matrix of rationals, and the C++ loops become `List.foldl` over the same
index ranges.  Where the code computes `r.norm()` (a square root), the norm is
passed as an explicit value `x` constrained by `0 < x` and `x * x = ⟪r, r⟫`,
which is exactly the defining property the code relies on.
-/

namespace Simbody

/-- A 3-vector of exact scalars, mirroring `SimTK::Vec3`. -/
structure Vec3 where
  x : ℚ
  y : ℚ
  z : ℚ
deriving DecidableEq, Repr

namespace Vec3

def add (a b : Vec3) : Vec3 := ⟨a.x + b.x, a.y + b.y, a.z + b.z⟩

def neg (a : Vec3) : Vec3 := ⟨-a.x, -a.y, -a.z⟩

def sub (a b : Vec3) : Vec3 := ⟨a.x - b.x, a.y - b.y, a.z - b.z⟩

def smul (r : ℚ) (a : Vec3) : Vec3 := ⟨r * a.x, r * a.y, r * a.z⟩

def zero : Vec3 := ⟨0, 0, 0⟩

instance : Add Vec3 := ⟨Vec3.add⟩
instance : Neg Vec3 := ⟨Vec3.neg⟩
instance : Sub Vec3 := ⟨Vec3.sub⟩
instance : SMul ℚ Vec3 := ⟨Vec3.smul⟩
instance : Zero Vec3 := ⟨Vec3.zero⟩

theorem add_def (a b : Vec3) : a + b = ⟨a.x + b.x, a.y + b.y, a.z + b.z⟩ := rfl

theorem neg_def (a : Vec3) : -a = ⟨-a.x, -a.y, -a.z⟩ := rfl

theorem sub_def (a b : Vec3) : a - b = ⟨a.x - b.x, a.y - b.y, a.z - b.z⟩ := rfl

theorem smul_def (r : ℚ) (a : Vec3) : r • a = ⟨r * a.x, r * a.y, r * a.z⟩ := rfl

theorem zero_def : (0 : Vec3) = ⟨0, 0, 0⟩ := rfl

theorem mk_zero : (⟨0, 0, 0⟩ : Vec3) = 0 := rfl

theorem x_zero : (0 : Vec3).x = 0 := rfl

theorem y_zero : (0 : Vec3).y = 0 := rfl

theorem z_zero : (0 : Vec3).z = 0 := rfl

instance : AddCommGroup Vec3 where
  add_assoc a b c := by
    simp only [add_def, mk.injEq]
    exact ⟨by ring, by ring, by ring⟩
  zero_add a := by cases a; simp [add_def, zero_def]
  add_zero a := by cases a; simp [add_def, zero_def]
  add_comm a b := by
    simp only [add_def, mk.injEq]
    exact ⟨by ring, by ring, by ring⟩
  neg_add_cancel a := by cases a; simp [add_def, neg_def, zero_def]
  nsmul := nsmulRec
  zsmul := zsmulRec
  sub_eq_add_neg a b := by
    simp only [sub_def, add_def, neg_def, mk.injEq]
    exact ⟨by ring, by ring, by ring⟩

end Vec3

/-- Dot product `~a * b` on 3-vectors. -/
def dot3 (a b : Vec3) : ℚ := a.x * b.x + a.y * b.y + a.z * b.z

/-- Cross product `a % b` on 3-vectors. -/
def cross (a b : Vec3) : Vec3 :=
  ⟨a.y * b.z - a.z * b.y, a.z * b.x - a.x * b.z, a.x * b.y - a.y * b.x⟩

theorem dot3_smul_left (r : ℚ) (a b : Vec3) : dot3 (r • a) b = r * dot3 a b := by
  cases a; cases b; simp [dot3, Vec3.smul_def]; ring

theorem dot3_neg_left (a b : Vec3) : dot3 (-a) b = -dot3 a b := by
  cases a; cases b; simp [dot3, Vec3.neg_def]; ring

theorem cross_zero_right (a : Vec3) : cross a 0 = 0 := by
  cases a; simp [cross, Vec3.zero_def]

/-- A 3×3 matrix (rows), mirroring `SimTK::Mat33` / `SimTK::Rotation`. -/
structure Mat3 where
  r1 : Vec3
  r2 : Vec3
  r3 : Vec3
deriving DecidableEq, Repr

namespace Mat3

/-- Matrix–vector product `M * v`. -/
def mulVec (M : Mat3) (v : Vec3) : Vec3 := ⟨dot3 M.r1 v, dot3 M.r2 v, dot3 M.r3 v⟩

/-- Matrix transpose `~M`. -/
def transpose (M : Mat3) : Mat3 :=
  ⟨⟨M.r1.x, M.r2.x, M.r3.x⟩, ⟨M.r1.y, M.r2.y, M.r3.y⟩, ⟨M.r1.z, M.r2.z, M.r3.z⟩⟩

/-- The identity matrix. -/
def one : Mat3 := ⟨⟨1, 0, 0⟩, ⟨0, 1, 0⟩, ⟨0, 0, 1⟩⟩

theorem mulVec_zero (M : Mat3) : M.mulVec 0 = 0 := by
  cases M; simp [mulVec, dot3, Vec3.zero_def]

end Mat3

/-- A rigid transform `X` = (rotation, translation), mirroring `SimTK::Transform`. -/
structure Transform where
  R : Mat3
  p : Vec3
deriving DecidableEq, Repr

/-- A spatial vector (moment, linear force), mirroring `SimTK::SpatialVec`. -/
abbrev SpatialVec := Vec3 × Vec3

namespace TwoPointConstantForce

/-- The vector `r_G = p2_G - p1_G` from station 1 to station 2, measured in
Ground, computed exactly as in `TwoPointConstantForceImpl::calcForce`. -/
def rel (X_GB1 X_GB2 : Transform) (station1 station2 : Vec3) : Vec3 :=
  let s1_G := X_GB1.R.mulVec station1
  let s2_G := X_GB2.R.mulVec station2
  let p1_G := X_GB1.p + s1_G
  let p2_G := X_GB2.p + s2_G
  p2_G - p1_G

/-- `Force::TwoPointConstantForceImpl::calcForce` (Force.cpp:167-184).  The
value `x` stands for the computed distance `r_G.norm()`; `d = r_G/x` is the
`UnitVec3` the code builds, and `f2_G = force * d`.  Returns the updated
accumulator entries for body 1 and body 2. -/
def calcForce (X_GB1 X_GB2 : Transform) (station1 station2 : Vec3)
    (force x : ℚ) (bf1 bf2 : SpatialVec) : SpatialVec × SpatialVec :=
  let s1_G := X_GB1.R.mulVec station1
  let s2_G := X_GB2.R.mulVec station2
  let p1_G := X_GB1.p + s1_G
  let p2_G := X_GB2.p + s2_G
  let r_G := p2_G - p1_G
  let d := (1 / x) • r_G
  let f2_G := force • d
  (bf1 - (cross s1_G f2_G, f2_G), bf2 + (cross s2_G f2_G, f2_G))

/-- `Force::TwoPointConstantForceImpl::calcPotentialEnergy` (Force.cpp:186-188). -/
def calcPotentialEnergy : ℚ := 0

end TwoPointConstantForce

theorem vec3_smul_smul (a b : ℚ) (v : Vec3) : a • (b • v) = (a * b) • v := by
  cases v; simp [Vec3.smul_def, mul_assoc]

/-- Concrete pose used to test the two-point constant force: body 1 at the
ground origin, body 2 at `(3,4,0)` (distance 5), identity rotations. -/
def cexPose1 : Transform := ⟨Mat3.one, 0⟩

/-- Second concrete pose for the two-point constant force test. -/
def cexPose2 : Transform := ⟨Mat3.one, ⟨3, 4, 0⟩⟩

/-- Unfolding set for evaluating the concrete two-point constant force pose. -/
theorem cexRel_eval : TwoPointConstantForce.rel cexPose1 cexPose2 0 0 = ⟨3, 4, 0⟩ := by
  norm_num [TwoPointConstantForce.rel, cexPose1, cexPose2, Mat3.mulVec, Mat3.one,
    dot3, Vec3.add_def, Vec3.sub_def, Vec3.zero_def]

/-- C1, counterexample: with both stations at the body origins, body 1 at the
ground origin and body 2 at `(3,4,0)` (distance `x = 5`), and a positive force
magnitude `force = 1`, the linear force that `calcForce` accumulates on body 1
has strictly negative dot product with the vector from station 1 to station 2:
body 1 is pushed away from body 2, not pulled toward it, refuting the claim
that a positive force magnitude always pulls the two bodies together. -/
theorem twoPointConstantForce_pulls_together_cex :
    (0 : ℚ) < 1
  ∧ (5 : ℚ) * 5 = dot3 (TwoPointConstantForce.rel cexPose1 cexPose2 0 0)
                       (TwoPointConstantForce.rel cexPose1 cexPose2 0 0)
  ∧ dot3 ((TwoPointConstantForce.calcForce cexPose1 cexPose2 0 0 1 5 0 0).1.2)
         (TwoPointConstantForce.rel cexPose1 cexPose2 0 0) < 0 := by
  refine ⟨by norm_num, by rw [cexRel_eval]; norm_num [dot3], ?_⟩
  rw [cexRel_eval]
  norm_num [TwoPointConstantForce.calcForce, cexPose1, cexPose2, Mat3.mulVec, Mat3.one,
    dot3, cross, Vec3.add_def, Vec3.sub_def, Vec3.smul_def, Vec3.neg_def, Vec3.zero_def,
    Prod.snd_sub, Prod.snd_zero]

/-- C1 (amended): for every state in which the two stations are at distinct
locations (`0 < x` with `x * x = ⟪r,r⟫` for the station separation `r`),
`TwoPointConstantForceImpl::calcForce` applies equal-and-opposite linear
forces to the two bodies along the current line between the stations, each
with moment equal to the attachment offset crossed with the force; for a
positive force magnitude the element pushes the two bodies apart (body 2 is
forced away from body 1 and body 1 away from body 2). -/
theorem twoPointConstantForce_pushes_apart
    (X_GB1 X_GB2 : Transform) (station1 station2 : Vec3) (force x : ℚ)
    (bf1 bf2 : SpatialVec)
    (hx : 0 < x)
    (hnorm : x * x = dot3 (TwoPointConstantForce.rel X_GB1 X_GB2 station1 station2)
                          (TwoPointConstantForce.rel X_GB1 X_GB2 station1 station2))
    (hf : 0 < force) :
    (TwoPointConstantForce.calcForce X_GB1 X_GB2 station1 station2 force x bf1 bf2).1
        = bf1 - (cross (X_GB1.R.mulVec station1)
                    ((force * (1 / x)) • TwoPointConstantForce.rel X_GB1 X_GB2 station1 station2),
                 (force * (1 / x)) • TwoPointConstantForce.rel X_GB1 X_GB2 station1 station2)
  ∧ (TwoPointConstantForce.calcForce X_GB1 X_GB2 station1 station2 force x bf1 bf2).2
        = bf2 + (cross (X_GB2.R.mulVec station2)
                    ((force * (1 / x)) • TwoPointConstantForce.rel X_GB1 X_GB2 station1 station2),
                 (force * (1 / x)) • TwoPointConstantForce.rel X_GB1 X_GB2 station1 station2)
  ∧ 0 < dot3 ((force * (1 / x)) • TwoPointConstantForce.rel X_GB1 X_GB2 station1 station2)
             (TwoPointConstantForce.rel X_GB1 X_GB2 station1 station2)
  ∧ dot3 (-((force * (1 / x)) • TwoPointConstantForce.rel X_GB1 X_GB2 station1 station2))
         (TwoPointConstantForce.rel X_GB1 X_GB2 station1 station2) < 0 := by
  have hpos : 0 < dot3 ((force * (1 / x)) • TwoPointConstantForce.rel X_GB1 X_GB2 station1 station2)
      (TwoPointConstantForce.rel X_GB1 X_GB2 station1 station2) := by
    rw [dot3_smul_left, ← hnorm]
    have h1 : 0 < force * (1 / x) := mul_pos hf (one_div_pos.mpr hx)
    exact mul_pos h1 (mul_pos hx hx)
  refine ⟨?_, ?_, hpos, ?_⟩
  · simp only [TwoPointConstantForce.calcForce, TwoPointConstantForce.rel, vec3_smul_smul]
  · simp only [TwoPointConstantForce.calcForce, TwoPointConstantForce.rel, vec3_smul_smul]
  · rw [dot3_neg_left]
    linarith

/-- C1, witness: the amended theorem applied at the concrete distance-5 pose
with force magnitude 2. -/
theorem twoPointConstantForce_pushes_apart_witness :
    (TwoPointConstantForce.calcForce cexPose1 cexPose2 0 0 2 5 0 0).1
        = 0 - (cross (cexPose1.R.mulVec 0)
                    (((2 : ℚ) * (1 / 5)) • TwoPointConstantForce.rel cexPose1 cexPose2 0 0),
                 ((2 : ℚ) * (1 / 5)) • TwoPointConstantForce.rel cexPose1 cexPose2 0 0)
  ∧ (TwoPointConstantForce.calcForce cexPose1 cexPose2 0 0 2 5 0 0).2
        = 0 + (cross (cexPose2.R.mulVec 0)
                    (((2 : ℚ) * (1 / 5)) • TwoPointConstantForce.rel cexPose1 cexPose2 0 0),
                 ((2 : ℚ) * (1 / 5)) • TwoPointConstantForce.rel cexPose1 cexPose2 0 0)
  ∧ 0 < dot3 (((2 : ℚ) * (1 / 5)) • TwoPointConstantForce.rel cexPose1 cexPose2 0 0)
             (TwoPointConstantForce.rel cexPose1 cexPose2 0 0)
  ∧ dot3 (-(((2 : ℚ) * (1 / 5)) • TwoPointConstantForce.rel cexPose1 cexPose2 0 0))
         (TwoPointConstantForce.rel cexPose1 cexPose2 0 0) < 0 :=
  twoPointConstantForce_pushes_apart cexPose1 cexPose2 0 0 2 5 0 0
    (by norm_num) (by rw [cexRel_eval]; norm_num [dot3]) (by norm_num)

theorem finRange_six : List.finRange 6 = [0, 1, 2, 3, 4, 5] := rfl

namespace LinearBushing

/-- The force cache of `Force::LinearBushingImpl`: the generalized force `f`,
the spatial forces at the two frame origins and at the two body origins, and
the potential energy computed alongside the force. -/
structure ForceCache where
  f : Fin 6 → ℚ
  F_GM : SpatialVec
  F_GF : SpatialVec
  F_GB : SpatialVec
  F_GA : SpatialVec
  pe : ℚ

/-- `Force::LinearBushingImpl::ensureForceCacheValid` (Force.cpp:417-488),
expressed as a function of the quantities it reads from the position and
velocity caches: the generalized coordinates `q` and rates `qdot`, the Euler
kinematic map `N_FM = calcNForBodyXYZInBodyFrame(q[0..2])` (an external
SimTKcommon primitive, passed in), the rotations `R_GM`, `R_GF`, and the
ground-frame offsets `p_BM_G`, `p_AF_G`. -/
def ensureForceCacheValid (k c q qdot : Fin 6 → ℚ) (N_FM R_GM R_GF : Mat3)
    (p_BM_G p_AF_G : Vec3) : ForceCache :=
  let fk : Fin 6 → ℚ := fun i => k i * q i
  let pe2 : ℚ := List.foldl (fun acc i => acc + fk i * q i) 0 (List.finRange 6)
  let fv : Fin 6 → ℚ := fun i => c i * qdot i
  let f : Fin 6 → ℚ := fun i => -(fk i + fv i)
  let fB_q : Vec3 := ⟨f 0, f 1, f 2⟩
  let fM_F : Vec3 := ⟨f 3, f 4, f 5⟩
  let mB_M : Vec3 := N_FM.transpose.mulVec fB_q
  let mB_G : Vec3 := R_GM.mulVec mB_M
  let fM_G : Vec3 := R_GF.mulVec fM_F
  let F_GM : SpatialVec := (mB_G, fM_G)
  let F_GF : SpatialVec := -F_GM
  let F_GB : SpatialVec := (F_GM.1 + cross p_BM_G F_GM.2, F_GM.2)
  let F_GA : SpatialVec := (F_GF.1 + cross p_AF_G F_GF.2, F_GF.2)
  { f := f, F_GM := F_GM, F_GF := F_GF, F_GB := F_GB, F_GA := F_GA, pe := pe2 / 2 }

/-- `Force::LinearBushingImpl::ensurePotentialEnergyValid` (Force.cpp:492-505):
the standalone potential-energy path, which needs only the position cache. -/
def ensurePotentialEnergyValid (k q : Fin 6 → ℚ) : ℚ :=
  (List.foldl (fun acc i => acc + k i * (q i * q i)) 0 (List.finRange 6)) / 2

/-- `Force::LinearBushingImpl::calcForce` (Force.cpp:507-518): adds the cached
spatial forces to the two bodies' accumulator entries. -/
def calcForce (k c q qdot : Fin 6 → ℚ) (N_FM R_GM R_GF : Mat3) (p_BM_G p_AF_G : Vec3)
    (bfA bfB : SpatialVec) : SpatialVec × SpatialVec :=
  let fc := ensureForceCacheValid k c q qdot N_FM R_GM R_GF p_BM_G p_AF_G
  (bfA + fc.F_GA, bfB + fc.F_GB)

/-- `Force::LinearBushingImpl::calcPotentialEnergy` (Force.cpp:522-526). -/
def calcPotentialEnergy (k q : Fin 6 → ℚ) : ℚ := ensurePotentialEnergyValid k q

end LinearBushing

/-- C3: for every state, the LinearBushing's generalized force is
`f = −(stiffness ⊙ q + damping ⊙ qdot)` elementwise over the 6 generalized
coordinates, and its potential energy is exactly `½·Σ stiffness_i·q_i²`
(no damping term), both when computed as a by-product of the force
computation and when computed standalone from the position cache alone. -/
theorem linearBushing_force_energy_law (k c q qdot : Fin 6 → ℚ) (N_FM R_GM R_GF : Mat3)
    (p_BM_G p_AF_G : Vec3) :
    (LinearBushing.ensureForceCacheValid k c q qdot N_FM R_GM R_GF p_BM_G p_AF_G).f
        = (fun i => -(k i * q i + c i * qdot i))
  ∧ (LinearBushing.ensureForceCacheValid k c q qdot N_FM R_GM R_GF p_BM_G p_AF_G).pe
        = (∑ i : Fin 6, k i * (q i * q i)) / 2
  ∧ LinearBushing.calcPotentialEnergy k q = (∑ i : Fin 6, k i * (q i * q i)) / 2 := by
  refine ⟨rfl, ?_, ?_⟩
  · simp only [LinearBushing.ensureForceCacheValid, finRange_six, List.foldl_cons,
      List.foldl_nil, Fin.sum_univ_six]
    ring
  · simp only [LinearBushing.calcPotentialEnergy, LinearBushing.ensurePotentialEnergyValid,
      finRange_six, List.foldl_cons, List.foldl_nil, Fin.sum_univ_six]
    ring

/-- C6, counterexample: a LinearBushing state in which all six generalized
coordinates are zero but all six generalized rates are 1 (unit damping on
every axis) produces a nonzero spatial-force contribution on body B, refuting
the claim that all-zero `q` alone forces a zero `calcForce` contribution for
every choice of damping coefficients. -/
theorem linearBushing_zero_q_cex :
    (LinearBushing.calcForce (fun _ => 0) (fun _ => 1) (fun _ => 0)
        (fun _ => 1) Mat3.one Mat3.one Mat3.one 0 0 0 0).2 ≠ 0 := by
  norm_num [LinearBushing.calcForce, LinearBushing.ensureForceCacheValid, finRange_six,
    Mat3.one, Mat3.transpose, Mat3.mulVec, dot3, cross, Vec3.add_def, Vec3.neg_def,
    Vec3.zero_def, Prod.ext_iff]
  intro h
  simp only [Vec3.zero_def, Vec3.mk.injEq]
  norm_num

/-- C6 (amended): for every LinearBushing state in which all six generalized
coordinates `q` AND all six generalized rates `qdot` are zero, and for every
choice of the stiffness and damping coefficients, `calcForce` contributes
exactly zero spatial force to both bodies; and whenever `q` is all-zero the
potential energy is exactly zero — along the force path for any rates, and
standalone.  (No division by any `q` component occurs anywhere: the
computation is total, so zero stiffness or damping on an axis is permitted.) -/
theorem linearBushing_zero_q_zero_qdot (k c qdot : Fin 6 → ℚ) (N_FM R_GM R_GF : Mat3)
    (p_BM_G p_AF_G : Vec3) (bfA bfB : SpatialVec) :
    LinearBushing.calcForce k c (fun _ => 0) (fun _ => 0) N_FM R_GM R_GF p_BM_G p_AF_G bfA bfB
        = (bfA, bfB)
  ∧ (LinearBushing.ensureForceCacheValid k c (fun _ => 0) qdot N_FM R_GM R_GF p_BM_G p_AF_G).pe
        = 0
  ∧ LinearBushing.calcPotentialEnergy k (fun _ => 0) = 0 := by
  refine ⟨?_, ?_, ?_⟩
  · simp [LinearBushing.calcForce, LinearBushing.ensureForceCacheValid, finRange_six,
      Vec3.mk_zero, Mat3.mulVec_zero, cross_zero_right]
  · simp only [LinearBushing.ensureForceCacheValid, finRange_six, List.foldl_cons,
      List.foldl_nil]
    norm_num
  · simp only [LinearBushing.calcPotentialEnergy, LinearBushing.ensurePotentialEnergyValid,
      finRange_six, List.foldl_cons, List.foldl_nil]
    norm_num

/-- `dot3` of a vector with itself is positive when the vector is nonzero. -/
theorem dot3_self_pos {v : Vec3} (h : v ≠ 0) : 0 < dot3 v v := by
  cases v with
  | mk a b c =>
    simp only [Ne, Vec3.zero_def, Vec3.mk.injEq, not_and] at h
    rcases eq_or_ne a 0 with ha | ha
    · rcases eq_or_ne b 0 with hb | hb
      · have hc : c ≠ 0 := h ha hb
        have := mul_self_pos.mpr hc
        simp [dot3]
        nlinarith [mul_self_nonneg a, mul_self_nonneg b]
      · have := mul_self_pos.mpr hb
        simp [dot3]
        nlinarith [mul_self_nonneg a, mul_self_nonneg c]
    · have := mul_self_pos.mpr ha
      simp [dot3]
      nlinarith [mul_self_nonneg b, mul_self_nonneg c]

theorem dot3_add_right (a b c : Vec3) : dot3 a (b + c) = dot3 a b + dot3 a c := by
  cases a; cases b; cases c; simp [dot3, Vec3.add_def]; ring

theorem dot3_smul_right (r : ℚ) (a b : Vec3) : dot3 a (r • b) = r * dot3 a b := by
  cases a; cases b; simp [dot3, Vec3.smul_def]; ring

theorem dot3_neg_right (a b : Vec3) : dot3 a (-b) = -dot3 a b := by
  cases a; cases b; simp [dot3, Vec3.neg_def]; ring

/-- Folding subtraction over a list accumulates the negated sum. -/
theorem foldl_sub_map_sum {α : Type} (f : α → ℚ) :
    ∀ (l : List α) (a : ℚ), List.foldl (fun pe x => pe - f x) a l = a - (l.map f).sum := by
  intro l
  induction l with
  | nil => intro a; simp
  | cons x xs ih =>
    intro a
    simp only [List.foldl_cons, List.map_cons, List.sum_cons, ih]
    ring

namespace UniformGravity

/-- The mass properties and pose of one mobilized body, as read from the
matter subsystem by `UniformGravityImpl`: mass, body-frame mass center, and
body transform `X_GB`. -/
structure BodyData where
  mass : ℚ
  com_B : Vec3
  X_GB : Transform

/-- The ground-frame mass-center location `com_G = X_GB.p() + X_GB.R()*com_B`. -/
def comG (b : BodyData) : Vec3 := b.X_GB.p + b.X_GB.R.mulVec b.com_B

/-- The per-state matter data `UniformGravityImpl` consumes: particle masses
and ground-frame locations, and the mobilized bodies with index ≥ 1 (gravity
skips the ground body). -/
structure MatterState where
  particles : List (ℚ × Vec3)
  bodies : List BodyData

/-- `Force::UniformGravityImpl::calcPotentialEnergy` (Force.cpp:899-924):
`pe -= m*(~g*loc + zeroHeight)` over all particles, then
`pe -= m*(~g*com_G + zeroHeight)` over all non-ground bodies. -/
def calcPotentialEnergy (g : Vec3) (zeroHeight : ℚ) (st : MatterState) : ℚ :=
  let peParticles :=
    List.foldl (fun pe mp => pe - mp.1 * (dot3 g mp.2 + zeroHeight)) 0 st.particles
  List.foldl
    (fun pe b =>
      let com_B_G := b.X_GB.R.mulVec b.com_B
      let com_G := b.X_GB.p + com_B_G
      pe - b.mass * (dot3 g com_G + zeroHeight))
    peParticles st.bodies

/-- A copy of a body whose ground pose is translated by `d`. -/
def shiftBody (b : BodyData) (d : Vec3) : BodyData :=
  { b with X_GB := { b.X_GB with p := b.X_GB.p + d } }

end UniformGravity

/-- Concrete gravity vector `(0,0,-1)` for the uniform-gravity tests. -/
def cexGravity : Vec3 := ⟨0, 0, -1⟩

/-- A unit-mass body resting at the ground origin. -/
def cexBody1 : UniformGravity.BodyData := ⟨1, 0, ⟨Mat3.one, 0⟩⟩

/-- The same body displaced by `(0,0,1)`, i.e. moved opposite to `cexGravity`. -/
def cexBody2 : UniformGravity.BodyData := ⟨1, 0, ⟨Mat3.one, ⟨0, 0, 1⟩⟩⟩

/-- C5, counterexample: under gravity `(0,0,-1)` with zero-height offset 0, a
unit-mass body at the origin has potential energy 0; moving it to `(0,0,1)` —
a displacement of exactly `1 • (−g)`, i.e. opposite to the gravity direction —
the returned potential energy strictly increases (from 0 to 1), refuting the
claim that the potential energy decreases as the body moves opposite to the
gravity direction. -/
theorem uniformGravity_pe_decreases_cex :
    UniformGravity.comG cexBody2 = UniformGravity.comG cexBody1 + (1 : ℚ) • (-cexGravity)
  ∧ UniformGravity.calcPotentialEnergy cexGravity 0 ⟨[], [cexBody2]⟩
      > UniformGravity.calcPotentialEnergy cexGravity 0 ⟨[], [cexBody1]⟩ := by
  constructor
  · norm_num [UniformGravity.comG, cexBody1, cexBody2, cexGravity, Mat3.one, Mat3.mulVec,
      dot3, Vec3.add_def, Vec3.neg_def, Vec3.smul_def, Vec3.zero_def, Vec3.x_zero,
      Vec3.y_zero, Vec3.z_zero]
  · norm_num [UniformGravity.calcPotentialEnergy, cexBody1, cexBody2, cexGravity,
      Mat3.one, Mat3.mulVec, dot3, Vec3.add_def, Vec3.zero_def, Vec3.x_zero,
      Vec3.y_zero, Vec3.z_zero]

/-- C5 (amended): uniform gravity's potential energy is the sum of the
per-particle and per-body contributions `−mass·(g·position + zeroHeight)`; a
body's contribution is exactly zero when `g·com_G = −zeroHeight` (the
configured zero-height offset); and for a positive-mass body and nonzero
gravity the returned potential energy strictly increases (not decreases) as
the body moves opposite to the gravity direction. -/
theorem uniformGravity_potentialEnergy_law (g : Vec3) (zeroHeight : ℚ)
    (ps : List (ℚ × Vec3)) (bs : List UniformGravity.BodyData)
    (b : UniformGravity.BodyData) (t : ℚ)
    (hb : dot3 g (UniformGravity.comG b) = -zeroHeight)
    (hm : 0 < b.mass) (ht : 0 < t) (hg : g ≠ 0) :
    UniformGravity.calcPotentialEnergy g zeroHeight ⟨ps, bs⟩
        = -((ps.map (fun mp => mp.1 * (dot3 g mp.2 + zeroHeight))).sum)
          - ((bs.map (fun bd => bd.mass * (dot3 g (UniformGravity.comG bd) + zeroHeight))).sum)
  ∧ UniformGravity.calcPotentialEnergy g zeroHeight ⟨[], [b]⟩ = 0
  ∧ UniformGravity.calcPotentialEnergy g zeroHeight ⟨[], [UniformGravity.shiftBody b (t • (-g))]⟩
      > UniformGravity.calcPotentialEnergy g zeroHeight ⟨[], [b]⟩ := by
  have hchar : ∀ st : UniformGravity.MatterState,
      UniformGravity.calcPotentialEnergy g zeroHeight st
        = -((st.particles.map (fun mp => mp.1 * (dot3 g mp.2 + zeroHeight))).sum)
          - ((st.bodies.map
              (fun bd => bd.mass * (dot3 g (UniformGravity.comG bd) + zeroHeight))).sum) := by
    intro st
    simp only [UniformGravity.calcPotentialEnergy, UniformGravity.comG,
      foldl_sub_map_sum]
    ring
  refine ⟨hchar _, ?_, ?_⟩
  · simp [hchar, hb]
  · have hshift : UniformGravity.comG (UniformGravity.shiftBody b (t • (-g)))
        = UniformGravity.comG b + t • (-g) := by
      simp only [UniformGravity.comG, UniformGravity.shiftBody]
      simp only [Vec3.add_def, Vec3.mk.injEq]
      refine ⟨by ring, by ring, by ring⟩
    have hmass : (UniformGravity.shiftBody b (t • (-g))).mass = b.mass := rfl
    have hd : 0 < dot3 g g := dot3_self_pos hg
    have e1 : UniformGravity.calcPotentialEnergy g zeroHeight ⟨[], [b]⟩
        = -(b.mass * (dot3 g (UniformGravity.comG b) + zeroHeight)) := by
      rw [hchar]
      simp
    have e2 : UniformGravity.calcPotentialEnergy g zeroHeight
          ⟨[], [UniformGravity.shiftBody b (t • (-g))]⟩
        = -(b.mass * (dot3 g (UniformGravity.comG b) - t * dot3 g g + zeroHeight)) := by
      rw [hchar]
      simp only [List.map_cons, List.map_nil, List.sum_cons, List.sum_nil, hmass, hshift,
        dot3_add_right, dot3_smul_right, dot3_neg_right]
      ring
    rw [e1, e2, hb]
    nlinarith [mul_pos (mul_pos hm ht) hd]

/-- C5, witness: the amended gravity theorem applied to the concrete scene
with gravity `(0,0,-1)`, one particle of mass 2 at `(0,0,3)`, and the
unit-mass body at the origin (which sits exactly at the zero-height offset),
displaced opposite to gravity by `1 • (−g)`. -/
theorem uniformGravity_potentialEnergy_law_witness :
    UniformGravity.calcPotentialEnergy cexGravity 0 ⟨[(2, ⟨0, 0, 3⟩)], [cexBody2]⟩
        = -((([(2, (⟨0, 0, 3⟩ : Vec3))] : List (ℚ × Vec3)).map
              (fun mp => mp.1 * (dot3 cexGravity mp.2 + 0))).sum)
          - (([cexBody2].map
              (fun bd => bd.mass * (dot3 cexGravity (UniformGravity.comG bd) + 0))).sum)
  ∧ UniformGravity.calcPotentialEnergy cexGravity 0 ⟨[], [cexBody1]⟩ = 0
  ∧ UniformGravity.calcPotentialEnergy cexGravity 0
        ⟨[], [UniformGravity.shiftBody cexBody1 ((1 : ℚ) • (-cexGravity))]⟩
      > UniformGravity.calcPotentialEnergy cexGravity 0 ⟨[], [cexBody1]⟩ :=
  uniformGravity_potentialEnergy_law cexGravity 0 [(2, ⟨0, 0, 3⟩)] [cexBody2] cexBody1 1
    (by norm_num [dot3, UniformGravity.comG, cexBody1, cexGravity, Mat3.one, Mat3.mulVec,
        Vec3.add_def, Vec3.zero_def, Vec3.x_zero, Vec3.y_zero, Vec3.z_zero])
    (by norm_num [cexBody1]) (by norm_num)
    (by simp only [cexGravity, Vec3.zero_def, Ne, Vec3.mk.injEq]; norm_num)

/-- Build configuration: `debug` keeps C `assert` checks enabled, `release`
(compiled with `NDEBUG`) compiles them out. -/
inductive BuildMode where
  | debug : BuildMode
  | release : BuildMode
deriving DecidableEq, Repr

namespace TwoPointLinearDamper

/-- The construction-time parameters stored by `TwoPointLinearDamperImpl`. -/
structure Params where
  body1 : ℕ
  station1 : Vec3
  body2 : ℕ
  station2 : Vec3
  damping : ℚ
deriving DecidableEq

/-- `Force::TwoPointLinearDamper::TwoPointLinearDamper` (Force.cpp:110-115):
the impl stores the parameters unchanged and the handle constructor runs
`assert(damping >= 0)`, which aborts construction only when asserts are
compiled in (debug builds); with `NDEBUG` the check disappears. -/
def construct (mode : BuildMode) (body1 : ℕ) (station1 : Vec3) (body2 : ℕ)
    (station2 : Vec3) (damping : ℚ) : Except String Params :=
  if mode = BuildMode.debug ∧ ¬ damping ≥ 0 then
    Except.error "assertion failed: damping >= 0"
  else
    Except.ok ⟨body1, station1, body2, station2, damping⟩

end TwoPointLinearDamper

namespace MobilityLinearDamper

/-- The construction-time parameters stored by `MobilityLinearDamperImpl`. -/
structure Params where
  body : ℕ
  coordinate : ℤ
  damping : ℚ
deriving DecidableEq

/-- `Force::MobilityLinearDamper::MobilityLinearDamper` (Force.cpp:226-230):
same `assert(damping >= 0)` pattern as the two-point damper. -/
def construct (mode : BuildMode) (body : ℕ) (coordinate : ℤ) (damping : ℚ) :
    Except String Params :=
  if mode = BuildMode.debug ∧ ¬ damping ≥ 0 then
    Except.error "assertion failed: damping >= 0"
  else
    Except.ok ⟨body, coordinate, damping⟩

end MobilityLinearDamper

namespace GlobalDamper

/-- The construction-time parameters stored by `GlobalDamperImpl`. -/
structure Params where
  damping : ℚ
deriving DecidableEq

/-- `Force::GlobalDamper::GlobalDamper` (Force.cpp:583-587): same
`assert(damping >= 0)` pattern. -/
def construct (mode : BuildMode) (damping : ℚ) : Except String Params :=
  if mode = BuildMode.debug ∧ ¬ damping ≥ 0 then
    Except.error "assertion failed: damping >= 0"
  else
    Except.ok ⟨damping⟩

end GlobalDamper

/-- C7, counterexample: in a release (`NDEBUG`) build, every damper
constructor accepts a negative damping coefficient `−1` unchanged — the
`assert(damping >= 0)` guard is compiled out — refuting the claim that a
negative damping coefficient is rejected at construction time in every build
configuration. -/
theorem damper_negative_damping_cex :
    TwoPointLinearDamper.construct BuildMode.release 0 0 1 0 (-1)
        = Except.ok ⟨0, 0, 1, 0, -1⟩
  ∧ MobilityLinearDamper.construct BuildMode.release 0 0 (-1) = Except.ok ⟨0, 0, -1⟩
  ∧ GlobalDamper.construct BuildMode.release (-1) = Except.ok ⟨-1⟩ := by
  refine ⟨?_, ?_, ?_⟩
  · simp [TwoPointLinearDamper.construct]
  · simp [MobilityLinearDamper.construct]
  · simp [GlobalDamper.construct]

/-- C7 (amended): a negative damping coefficient passed to any damper
constructor (TwoPointLinearDamper, MobilityLinearDamper, GlobalDamper) is
rejected by the `assert` only in debug builds; in any build configuration a
constructor that returns accepts the coefficient exactly as supplied (never
clamped or defaulted), and a nonnegative coefficient is always accepted. -/
theorem damper_negative_damping_policy (mode : BuildMode) (b1 b2 : ℕ) (s1 s2 : Vec3)
    (co : ℤ) (d : ℚ) :
    (d < 0 → TwoPointLinearDamper.construct BuildMode.debug b1 s1 b2 s2 d
        = Except.error "assertion failed: damping >= 0")
  ∧ (d < 0 → MobilityLinearDamper.construct BuildMode.debug b1 co d
        = Except.error "assertion failed: damping >= 0")
  ∧ (d < 0 → GlobalDamper.construct BuildMode.debug d
        = Except.error "assertion failed: damping >= 0")
  ∧ (∀ p, TwoPointLinearDamper.construct mode b1 s1 b2 s2 d = Except.ok p → p.damping = d)
  ∧ (∀ p, MobilityLinearDamper.construct mode b1 co d = Except.ok p → p.damping = d)
  ∧ (∀ p, GlobalDamper.construct mode d = Except.ok p → p.damping = d)
  ∧ (0 ≤ d → TwoPointLinearDamper.construct mode b1 s1 b2 s2 d
        = Except.ok ⟨b1, s1, b2, s2, d⟩)
  ∧ (0 ≤ d → MobilityLinearDamper.construct mode b1 co d = Except.ok ⟨b1, co, d⟩)
  ∧ (0 ≤ d → GlobalDamper.construct mode d = Except.ok ⟨d⟩) := by
  refine ⟨?_, ?_, ?_, ?_, ?_, ?_, ?_, ?_, ?_⟩
  · intro h
    simp [TwoPointLinearDamper.construct, not_le.mpr h]
  · intro h
    simp [MobilityLinearDamper.construct, not_le.mpr h]
  · intro h
    simp [GlobalDamper.construct, not_le.mpr h]
  · intro p hp
    unfold TwoPointLinearDamper.construct at hp
    split at hp
    · cases hp
    · cases hp
      rfl
  · intro p hp
    unfold MobilityLinearDamper.construct at hp
    split at hp
    · cases hp
    · cases hp
      rfl
  · intro p hp
    unfold GlobalDamper.construct at hp
    split at hp
    · cases hp
    · cases hp
      rfl
  · intro h
    simp [TwoPointLinearDamper.construct, h]
  · intro h
    simp [MobilityLinearDamper.construct, h]
  · intro h
    simp [GlobalDamper.construct, h]

/-- C7, witness: the amended policy applied at damping `−2` (rejected in a
debug build by all three constructors) and at damping `3` (accepted in a
release build, stored unchanged). -/
theorem damper_negative_damping_policy_witness :
    TwoPointLinearDamper.construct BuildMode.debug 0 0 1 0 (-2)
        = Except.error "assertion failed: damping >= 0"
  ∧ MobilityLinearDamper.construct BuildMode.debug 0 0 (-2)
        = Except.error "assertion failed: damping >= 0"
  ∧ GlobalDamper.construct BuildMode.debug (-2)
        = Except.error "assertion failed: damping >= 0"
  ∧ TwoPointLinearDamper.construct BuildMode.release 0 0 1 0 3
        = Except.ok ⟨0, 0, 1, 0, 3⟩ :=
  ⟨(damper_negative_damping_policy BuildMode.debug 0 1 0 0 0 (-2)).1 (by norm_num),
   (damper_negative_damping_policy BuildMode.debug 0 1 0 0 0 (-2)).2.1 (by norm_num),
   (damper_negative_damping_policy BuildMode.debug 0 1 0 0 0 (-2)).2.2.1 (by norm_num),
   (damper_negative_damping_policy BuildMode.release 0 1 0 0 0 3).2.2.2.2.2.2.1
     (by norm_num)⟩

namespace Thermostat

/-- The per-`State` data of `Force::ThermostatImpl`: the chain-count, bath
temperature and relaxation-time discrete variables, the counts `getNU()` and
`getNUDotErr()`, the cached kinetic energy `KE`, the auxiliary continuous
variables `z` (slot `i` holds `getZ(state, i)`; slots `0..m-1` are the chain
variables, slots `m..2m-1` the bookkeeping variables `s`), and the matching
derivative slots `zdot` (`updZDot(state, i)`). -/
structure State where
  numChains : ℤ
  bathTemp : ℚ
  relaxationTime : ℚ
  nu : ℕ
  nudoterr : ℕ
  ke : ℚ
  zvals : ℕ → ℚ
  zdot : ℕ → ℚ

/-- `Force::ThermostatImpl::getNumDOFs` (Force.cpp:752-755):
`max(1, state.getNU() - state.getNUDotErr())`. -/
def getNumDOFs (s : State) : ℤ := max 1 ((s.nu : ℤ) - (s.nudoterr : ℤ))

/-- `Force::Thermostat::getNumChains` (Force.cpp:680): reads the discrete
chain-count variable. -/
def getNumChains (s : State) : ℤ := s.numChains

/-- `Force::Thermostat::Thermostat` (Force.cpp:606-619): the three
`SimTK_APIARGCHECK1_ALWAYS` validations, active in every build, run in
order (Boltzmann constant, bath temperature, relaxation time); on success
the parameters are stored exactly as supplied. -/
def construct (boltzmannsConstant bathTemperature relaxationTime : ℚ) :
    Except String (ℚ × ℚ × ℚ) :=
  if ¬ boltzmannsConstant > 0 then Except.error "Illegal Boltzmanns constant."
  else if ¬ bathTemperature > 0 then Except.error "Illegal bath temperature."
  else if ¬ relaxationTime > 0 then Except.error "Illegal relaxation time."
  else Except.ok (boltzmannsConstant, bathTemperature, relaxationTime)

/-- The topology-stage default parameters held by `ThermostatImpl`. -/
structure Defaults where
  defaultNumChains : ℤ
  defaultBathTemp : ℚ
  defaultRelaxationTime : ℚ
deriving DecidableEq

/-- `Force::Thermostat::setDefaultNumChains` (Force.cpp:621-629). -/
def setDefaultNumChains (h : Defaults) (numChains : ℤ) : Except String Defaults :=
  if numChains > 0 then Except.ok { h with defaultNumChains := numChains }
  else Except.error "Illegal number of chains."

/-- `Force::Thermostat::setDefaultBathTemperature` (Force.cpp:631-639). -/
def setDefaultBathTemperature (h : Defaults) (bathTemperature : ℚ) :
    Except String Defaults :=
  if bathTemperature > 0 then Except.ok { h with defaultBathTemp := bathTemperature }
  else Except.error "Illegal bath temperature."

/-- `Force::Thermostat::setDefaultRelaxationTime` (Force.cpp:641-649). -/
def setDefaultRelaxationTime (h : Defaults) (relaxationTime : ℚ) :
    Except String Defaults :=
  if relaxationTime > 0 then Except.ok { h with defaultRelaxationTime := relaxationTime }
  else Except.error "Illegal bath temperature."

/-- `Force::Thermostat::setNumChains` (Force.cpp:656-662): validated with
`SimTK_APIARGCHECK1_ALWAYS(numChains > 0, ...)` before the state variable is
assigned, so an illegal value raises and leaves the state untouched. -/
def setNumChains (s : State) (numChains : ℤ) : Except String State :=
  if numChains > 0 then Except.ok { s with numChains := numChains }
  else Except.error "Illegal number of chains."

/-- `Force::Thermostat::setBathTemperature` (Force.cpp:664-670). -/
def setBathTemperature (s : State) (bathTemperature : ℚ) : Except String State :=
  if bathTemperature > 0 then Except.ok { s with bathTemp := bathTemperature }
  else Except.error "Illegal bath temperature."

/-- `Force::Thermostat::setRelaxationTime` (Force.cpp:672-678). -/
def setRelaxationTime (s : State) (relaxationTime : ℚ) : Except String State :=
  if relaxationTime > 0 then Except.ok { s with relaxationTime := relaxationTime }
  else Except.error "Illegal bath temperature."

/-- `Force::Thermostat::initializeChainState` (Force.cpp:684-689): zeroes the
auxiliary variables `z` at indices `0..2*nChains-1`. -/
def initializeChainState (s : State) : State :=
  { s with zvals := fun i => if i < 2 * s.numChains.toNat then 0 else s.zvals i }

/-- `Force::Thermostat::setChainState` (Force.cpp:691-699): a
`SimTK_APIARGCHECK2_ALWAYS` size check (`z.size() == 2*nChains`) runs before
the copy loop, so a mismatched vector raises without modifying any auxiliary
state; otherwise all `2*nChains` supplied values are copied in. -/
def setChainState (s : State) (z : List ℚ) : Except String State :=
  if (z.length : ℤ) = 2 * s.numChains then
    Except.ok { s with
      zvals := fun i => if i < 2 * s.numChains.toNat then z.getD i 0 else s.zvals i }
  else
    Except.error "Number of values supplied didnt match the number of chains."

/-- `Force::Thermostat::getChainState` (Force.cpp:701-708): reads the
`2*nChains` auxiliary values into a vector. -/
def getChainState (s : State) : List ℚ :=
  (List.range (2 * s.numChains.toNat)).map s.zvals

/-- `Force::Thermostat::calcBathEnergy` (Force.cpp:722-744):
`zsqsum = N*z0^2 + Σ_{i=1}^{m-1} z_i^2`, `ssum = N*z_m + Σ_{i=1}^{m-1} z_{m+i}`,
`KEb = (kT/2)*t^2*zsqsum`, `PEb = kT*ssum`, result `KEb + PEb`. -/
def calcBathEnergy (Kb : ℚ) (s : State) : ℚ :=
  let nChains := s.numChains.toNat
  let N := getNumDOFs s
  let kT := Kb * s.bathTemp
  let t := s.relaxationTime
  let zsqsum := List.foldl (fun acc i => acc + s.zvals i * s.zvals i)
    ((N : ℚ) * (s.zvals 0 * s.zvals 0)) (List.range' 1 (nChains - 1))
  let ssum := List.foldl (fun acc i => acc + s.zvals (nChains + i))
    ((N : ℚ) * s.zvals nChains) (List.range' 1 (nChains - 1))
  let KEb := (kT / 2) * (t * t) * zsqsum
  let PEb := kT * ssum
  KEb + PEb

/-- `matter.calcMV(state, u, p)`: the mass-matrix/vector product supplied by
the matter subsystem (an external collaborator), `p_i = Σ_j M_ij u_j`. -/
def calcMV (n : ℕ) (M : Fin n → Fin n → ℚ) (u : Fin n → ℚ) : Fin n → ℚ :=
  fun i => ∑ j, M i j * u j

/-- `Force::ThermostatImpl::calcForce` (Force.cpp:757-765): computes the
momentum `p = M*u` and subtracts `z0 * p` from the mobility-force
accumulator; the body spatial-force and particle-force accumulators appear
only as the (unnamed, untouched) second and third parameters. -/
def calcForce (s : State) (n : ℕ) (M : Fin n → Fin n → ℚ) (u : Fin n → ℚ)
    (bodyForces : List SpatialVec) (particleForces : List Vec3)
    (mobilityForces : Fin n → ℚ) :
    List SpatialVec × List Vec3 × (Fin n → ℚ) :=
  let p := calcMV n M u
  (bodyForces, particleForces, fun i => mobilityForces i - s.zvals 0 * p i)

/-- Modelled from the spec: `ThermostatImpl::calcPotentialEnergy` is declared
in `ForceImpl.h`, which is not part of this repository snapshot; the spec
states the thermostat makes no potential energy contribution (its stored
energy lives in the bath, not the mechanical potential). -/
def calcPotentialEnergy (_s : State) : ℚ := 0

/-- One iteration of the chain loop in
`Force::ThermostatImpl::realizeDynamics` (Force.cpp:831-837): at index `k`,
`zdot(k-1) -= z(k-1)*z(k)` and `zdot(k) = Ndofs*z(k-1)^2 - oot2`, after which
the running `Ndofs` becomes 1. -/
def chainStep (z : ℕ → ℚ) (oot2 : ℚ) (acc : (ℕ → ℚ) × ℚ) (k : ℕ) : (ℕ → ℚ) × ℚ :=
  let zk1 := z (k - 1)
  let zk := z k
  let zd1 := Function.update acc.1 (k - 1) (acc.1 (k - 1) - zk1 * zk)
  (Function.update zd1 k (acc.2 * (zk1 * zk1) - oot2), 1)

/-- `Force::ThermostatImpl::realizeDynamics` (Force.cpp:815-842): with
`oot2 = 1/t^2`, `Eb = Kb*T/2`, `N = getNumDOFs`, `E = KE/N`, sets
`zdot 0 = (E/Eb - 1)*oot2`, runs the chain loop for `k = 1..m-1`, then sets
`zdot (m+k) = z k` for `k = 0..m-1`. -/
def realizeDynamics (Kb : ℚ) (s : State) : State :=
  let t := s.relaxationTime
  let oot2 := 1 / (t * t)
  let m := s.numChains.toNat
  let Eb := Kb * s.bathTemp / 2
  let N := getNumDOFs s
  let E := s.ke / (N : ℚ)
  let zd0 := Function.update s.zdot 0 ((E / Eb - 1) * oot2)
  let chain := List.foldl (chainStep s.zvals oot2) (zd0, (N : ℚ)) (List.range' 1 (m - 1))
  let zd := List.foldl (fun acc k => Function.update acc (m + k) (s.zvals k))
    chain.1 (List.range m)
  { s with zdot := zd }

end Thermostat

/-- A sample thermostat state: one chain, unit temperature and relaxation
time, 3 generalized speeds, no acceleration constraints. -/
def sampleThermoState : Thermostat.State :=
  { numChains := 1, bathTemp := 1, relaxationTime := 1, nu := 3, nudoterr := 0,
    ke := 1, zvals := fun _ => 0, zdot := fun _ => 0 }

/-- Sample default-parameter block for the thermostat. -/
def sampleThermoDefaults : Thermostat.Defaults :=
  { defaultNumChains := 1, defaultBathTemp := 1, defaultRelaxationTime := 1 }

/-- C8: every Thermostat constructor or setter call supplying a non-positive
chain count, bath temperature, or relaxation time raises an error
synchronously (the `_ALWAYS` argument checks run before any assignment, so
the parameter is left unchanged), and `setChainState` raises an error without
modifying any auxiliary value exactly when the supplied vector's length
differs from `2*chainCount`, otherwise copying all `2*chainCount` values into
the auxiliary state. -/
theorem thermostat_parameter_validation
    (Kb T tau x : ℚ) (h : Thermostat.Defaults) (s : Thermostat.State) (n : ℤ)
    (z : List ℚ) :
    (T ≤ 0 ∨ tau ≤ 0 → ∃ e, Thermostat.construct Kb T tau = Except.error e)
  ∧ (n ≤ 0 → Thermostat.setDefaultNumChains h n
        = Except.error "Illegal number of chains.")
  ∧ (x ≤ 0 → Thermostat.setDefaultBathTemperature h x
        = Except.error "Illegal bath temperature.")
  ∧ (x ≤ 0 → Thermostat.setDefaultRelaxationTime h x
        = Except.error "Illegal bath temperature.")
  ∧ (n ≤ 0 → Thermostat.setNumChains s n = Except.error "Illegal number of chains.")
  ∧ (0 < n → Thermostat.setNumChains s n = Except.ok { s with numChains := n })
  ∧ (x ≤ 0 → Thermostat.setBathTemperature s x
        = Except.error "Illegal bath temperature.")
  ∧ (0 < x → Thermostat.setBathTemperature s x = Except.ok { s with bathTemp := x })
  ∧ (x ≤ 0 → Thermostat.setRelaxationTime s x
        = Except.error "Illegal bath temperature.")
  ∧ (0 < x → Thermostat.setRelaxationTime s x
        = Except.ok { s with relaxationTime := x })
  ∧ ((z.length : ℤ) ≠ 2 * s.numChains →
        Thermostat.setChainState s z
          = Except.error "Number of values supplied didnt match the number of chains.")
  ∧ ((z.length : ℤ) = 2 * s.numChains →
        Thermostat.setChainState s z = Except.ok { s with
          zvals := fun i => if i < 2 * s.numChains.toNat
            then z.getD i 0 else s.zvals i }) := by
  refine ⟨?_, ?_, ?_, ?_, ?_, ?_, ?_, ?_, ?_, ?_, ?_, ?_⟩
  · intro hor
    unfold Thermostat.construct
    split
    · exact ⟨_, rfl⟩
    · split
      · exact ⟨_, rfl⟩
      · split
        · exact ⟨_, rfl⟩
        · rename_i h1 h2 h3
          rcases hor with hT | ht
          · exact absurd (not_not.mp h2) (not_lt.mpr hT)
          · exact absurd (not_not.mp h3) (not_lt.mpr ht)
  · intro hn
    simp [Thermostat.setDefaultNumChains, not_lt.mpr hn]
  · intro hx
    simp [Thermostat.setDefaultBathTemperature, not_lt.mpr hx]
  · intro hx
    simp [Thermostat.setDefaultRelaxationTime, not_lt.mpr hx]
  · intro hn
    simp [Thermostat.setNumChains, not_lt.mpr hn]
  · intro hn
    simp [Thermostat.setNumChains, hn]
  · intro hx
    simp [Thermostat.setBathTemperature, not_lt.mpr hx]
  · intro hx
    simp [Thermostat.setBathTemperature, hx]
  · intro hx
    simp [Thermostat.setRelaxationTime, not_lt.mpr hx]
  · intro hx
    simp [Thermostat.setRelaxationTime, hx]
  · intro hne
    simp [Thermostat.setChainState, hne]
  · intro heq
    simp [Thermostat.setChainState, heq]

/-- C8, witness: the validation theorem applied at concrete illegal values
(temperature −1, chain count −1, empty chain vector on a 1-chain state) and
legal ones (chain count 2, temperature 5, chain vector `[3,4]`). -/
theorem thermostat_parameter_validation_witness :
    (∃ e, Thermostat.construct 1 (-1) 1 = Except.error e)
  ∧ Thermostat.setNumChains sampleThermoState (-1)
      = Except.error "Illegal number of chains."
  ∧ Thermostat.setNumChains sampleThermoState 2
      = Except.ok { sampleThermoState with numChains := 2 }
  ∧ Thermostat.setBathTemperature sampleThermoState 5
      = Except.ok { sampleThermoState with bathTemp := 5 }
  ∧ Thermostat.setChainState sampleThermoState []
      = Except.error "Number of values supplied didnt match the number of chains."
  ∧ Thermostat.setChainState sampleThermoState [3, 4]
      = Except.ok { sampleThermoState with
          zvals := fun i => if i < 2 * sampleThermoState.numChains.toNat
            then [(3 : ℚ), 4].getD i 0 else sampleThermoState.zvals i } :=
  ⟨(thermostat_parameter_validation 1 (-1) 1 (-1) sampleThermoDefaults sampleThermoState
      (-1) []).1 (Or.inl (by norm_num)),
   (thermostat_parameter_validation 1 (-1) 1 (-1) sampleThermoDefaults sampleThermoState
      (-1) []).2.2.2.2.1 (by norm_num),
   (thermostat_parameter_validation 1 1 1 5 sampleThermoDefaults sampleThermoState
      2 [3, 4]).2.2.2.2.2.1 (by norm_num),
   (thermostat_parameter_validation 1 1 1 5 sampleThermoDefaults sampleThermoState
      2 [3, 4]).2.2.2.2.2.2.2.1 (by norm_num),
   (thermostat_parameter_validation 1 (-1) 1 (-1) sampleThermoDefaults sampleThermoState
      (-1) []).2.2.2.2.2.2.2.2.2.2.1 (by norm_num [sampleThermoState]),
   (thermostat_parameter_validation 1 1 1 5 sampleThermoDefaults sampleThermoState
      2 [3, 4]).2.2.2.2.2.2.2.2.2.2.2 (by norm_num [sampleThermoState])⟩

/-- Mapping the clamped `getD` accessor over the index range of a list
reproduces the list. -/
theorem range_map_ite_getD (z : List ℚ) (g : ℕ → ℚ) :
    (List.range z.length).map (fun i => if i < z.length then z.getD i 0 else g i) = z := by
  apply List.ext_getElem
  · simp
  · intro i h1 h2
    simp only [List.getElem_map, List.getElem_range]
    rw [if_pos h2, List.getD_eq_getElem z 0 h2]

/-- Mapping an index-guarded zero over a range gives a replicate. -/
theorem range_map_ite_zero (n : ℕ) (g : ℕ → ℚ) :
    (List.range n).map (fun i => if i < n then 0 else g i) = List.replicate n 0 := by
  apply List.ext_getElem
  · simp
  · intro i h1 h2
    simp only [List.getElem_map, List.getElem_range, List.getElem_replicate]
    have hi : i < n := by simpa using h1
    rw [if_pos hi]

/-- C10: for every state and every vector `z` of length `2*getNumChains`,
`setChainState` succeeds and a following `getChainState` returns exactly `z`;
and after `initializeChainState`, `getChainState` returns the all-zero vector
of length `2*getNumChains`. -/
theorem thermostat_chainState_roundtrip (s : Thermostat.State) (z : List ℚ)
    (hz : (z.length : ℤ) = 2 * Thermostat.getNumChains s) :
    (∃ s1, Thermostat.setChainState s z = Except.ok s1
        ∧ Thermostat.getChainState s1 = z)
  ∧ Thermostat.getChainState (Thermostat.initializeChainState s)
      = List.replicate (2 * s.numChains.toNat) 0 := by
  have hz' : (z.length : ℤ) = 2 * s.numChains := hz
  have hlen : z.length = 2 * s.numChains.toNat := by omega
  constructor
  · refine ⟨{ s with zvals := fun i =>
        (if i < 2 * s.numChains.toNat then z.getD i 0 else s.zvals i) }, ?_, ?_⟩
    · unfold Thermostat.setChainState
      rw [if_pos hz']
    · show (List.range (2 * s.numChains.toNat)).map
            (fun i => if i < 2 * s.numChains.toNat then z.getD i 0 else s.zvals i) = z
      rw [← hlen]
      exact range_map_ite_getD z s.zvals
  · show (List.range (2 * s.numChains.toNat)).map
          (fun i => if i < 2 * s.numChains.toNat then 0 else s.zvals i)
        = List.replicate (2 * s.numChains.toNat) 0
    exact range_map_ite_zero _ s.zvals

/-- Folding addition over the loop range `i = 1 .. n` accumulates the
`Finset.Ico 1 (n+1)` sum. -/
theorem foldl_add_range' (f : ℕ → ℚ) :
    ∀ (n : ℕ) (a : ℚ),
      List.foldl (fun acc i => acc + f i) a (List.range' 1 n)
        = a + ∑ i in Finset.Ico 1 (n + 1), f i := by
  intro n
  induction n with
  | zero => intro a; simp
  | succ n ih =>
    intro a
    rw [List.range'_concat, List.foldl_append, List.foldl_cons, List.foldl_nil, ih]
    have h2 : 1 + 1 * n = n + 1 := by omega
    rw [h2, Finset.sum_Ico_succ_top (by omega : 1 ≤ n + 1)]
    ring

/-- A sample thermostat state with two chains and nonzero chain variables. -/
def sampleThermoState2 : Thermostat.State :=
  { numChains := 2, bathTemp := 3, relaxationTime := 2, nu := 5, nudoterr := 1,
    ke := 10, zvals := fun i => (i : ℚ) + 1, zdot := fun i => (i : ℚ) }

/-- C4: `calcBathEnergy` returns exactly `KEb + PEb` with
`KEb = (Kb·T/2)·τ²·(N·z₀² + Σ_{i=1}^{m-1} z_i²)` and
`PEb = Kb·T·(N·s₀ + Σ_{i=1}^{m-1} s_i)`, the bookkeeping variables `s_i`
living in auxiliary slots `m..2m-1`, and `N = max(1, getNU - getNUDotErr)`. -/
theorem thermostat_calcBathEnergy_law (Kb : ℚ) (s : Thermostat.State)
    (hm : 1 ≤ s.numChains) :
    Thermostat.calcBathEnergy Kb s
      = (Kb * s.bathTemp / 2) * (s.relaxationTime * s.relaxationTime)
          * ((Thermostat.getNumDOFs s : ℚ) * (s.zvals 0 * s.zvals 0)
             + ∑ i in Finset.Ico 1 s.numChains.toNat, s.zvals i * s.zvals i)
        + Kb * s.bathTemp
          * ((Thermostat.getNumDOFs s : ℚ) * s.zvals s.numChains.toNat
             + ∑ i in Finset.Ico 1 s.numChains.toNat, s.zvals (s.numChains.toNat + i))
  ∧ Thermostat.getNumDOFs s = max 1 ((s.nu : ℤ) - (s.nudoterr : ℤ)) := by
  constructor
  · have h1 : s.numChains.toNat - 1 + 1 = s.numChains.toNat := by omega
    simp only [Thermostat.calcBathEnergy]
    rw [foldl_add_range' (fun i => s.zvals i * s.zvals i),
        foldl_add_range' (fun i => s.zvals (s.numChains.toNat + i)), h1]
  · rfl

/-- C4, witness: the bath-energy law evaluated on the two-chain sample
state with `Kb = 1`. -/
theorem thermostat_calcBathEnergy_law_witness :
    Thermostat.calcBathEnergy 1 sampleThermoState2
      = (1 * sampleThermoState2.bathTemp / 2)
          * (sampleThermoState2.relaxationTime * sampleThermoState2.relaxationTime)
          * ((Thermostat.getNumDOFs sampleThermoState2 : ℚ)
              * (sampleThermoState2.zvals 0 * sampleThermoState2.zvals 0)
             + ∑ i in Finset.Ico 1 sampleThermoState2.numChains.toNat,
                 sampleThermoState2.zvals i * sampleThermoState2.zvals i)
        + 1 * sampleThermoState2.bathTemp
          * ((Thermostat.getNumDOFs sampleThermoState2 : ℚ)
              * sampleThermoState2.zvals sampleThermoState2.numChains.toNat
             + ∑ i in Finset.Ico 1 sampleThermoState2.numChains.toNat,
                 sampleThermoState2.zvals (sampleThermoState2.numChains.toNat + i))
  ∧ Thermostat.getNumDOFs sampleThermoState2
      = max 1 ((sampleThermoState2.nu : ℤ) - (sampleThermoState2.nudoterr : ℤ)) :=
  thermostat_calcBathEnergy_law 1 sampleThermoState2 (by norm_num [sampleThermoState2])

/-- C9: the Thermostat's `calcForce` subtracts exactly `z₀·(M·u)` from the
mobility-force accumulator, returns the body spatial-force and particle-force
accumulators entirely unchanged, and contributes no potential energy. -/
theorem thermostat_calcForce_frame (s : Thermostat.State) (n : ℕ)
    (M : Fin n → Fin n → ℚ) (u : Fin n → ℚ) (bodyForces : List SpatialVec)
    (particleForces : List Vec3) (mobilityForces : Fin n → ℚ) :
    (Thermostat.calcForce s n M u bodyForces particleForces mobilityForces).1 = bodyForces
  ∧ (Thermostat.calcForce s n M u bodyForces particleForces mobilityForces).2.1
      = particleForces
  ∧ (∀ i, (Thermostat.calcForce s n M u bodyForces particleForces mobilityForces).2.2 i
      = mobilityForces i - s.zvals 0 * ∑ j, M i j * u j)
  ∧ Thermostat.calcPotentialEnergy s = 0 :=
  ⟨rfl, rfl, fun _ => rfl, rfl⟩

/-- Closed form of the thermostat chain loop after processing iterations
`k = 1..j`: slot 0 holds the base value minus the first subtraction once the
loop has run at least once; slot `i ∈ [1, j]` holds
`Ndofs_i·z_{i-1}² − oot2`, minus the later subtraction when iteration `i+1`
has also run; every other slot still holds its initial value. -/
def chainClosed (N oot2 base : ℚ) (z zd : ℕ → ℚ) (j : ℕ) (i : ℕ) : ℚ :=
  if i = 0 then (if 1 ≤ j then base - z 0 * z 1 else base)
  else if 1 ≤ i ∧ i ≤ j then
    (if i = 1 then N else 1) * (z (i - 1) * z (i - 1)) - oot2
      - (if i + 1 ≤ j then z i * z (i + 1) else 0)
  else zd i

/-- The thermostat chain loop folded over `k = 1..j` realizes `chainClosed`,
and its running `Ndofs` accumulator is `N` until the first iteration and 1
afterwards. -/
theorem chain_foldl_char (z : ℕ → ℚ) (oot2 N base : ℚ) (zd : ℕ → ℚ) :
    ∀ j : ℕ,
      (List.foldl (Thermostat.chainStep z oot2) (Function.update zd 0 base, N)
          (List.range' 1 j)).2 = (if j = 0 then N else 1)
    ∧ ∀ i, (List.foldl (Thermostat.chainStep z oot2) (Function.update zd 0 base, N)
          (List.range' 1 j)).1 i = chainClosed N oot2 base z zd j i := by
  intro j
  induction j with
  | zero =>
    constructor
    · simp
    · intro i
      by_cases hi : i = 0
      · subst hi
        simp [chainClosed, Function.update_apply]
      · simp [chainClosed, hi, Function.update_apply, Nat.le_zero]
  | succ j ih =>
    obtain ⟨ih2, ih1⟩ := ih
    have hfold : List.foldl (Thermostat.chainStep z oot2) (Function.update zd 0 base, N)
        (List.range' 1 (j + 1))
          = Thermostat.chainStep z oot2
              (List.foldl (Thermostat.chainStep z oot2) (Function.update zd 0 base, N)
                (List.range' 1 j)) (1 + 1 * j) := by
      rw [List.range'_concat, List.foldl_append, List.foldl_cons, List.foldl_nil]
    have hk : 1 + 1 * j = j + 1 := by omega
    rw [hfold, hk]
    constructor
    · rfl
    · intro i
      have hk1 : j + 1 - 1 = j := by omega
      simp only [Thermostat.chainStep, hk1, Function.update_apply]
      by_cases h1 : i = j + 1
      · subst h1
        rw [if_pos rfl, ih2]
        have e0 : ¬(j + 1 = 0) := by omega
        have e1 : 1 ≤ j + 1 ∧ j + 1 ≤ j + 1 := by omega
        have e2 : ¬(j + 1 + 1 ≤ j + 1) := by omega
        have e3 : (j + 1 = 1) ↔ (j = 0) := by omega
        simp [chainClosed, e0, e1, e2, e3, hk1]
      · rw [if_neg h1]
        by_cases h2 : i = j
        · subst h2
          rw [if_pos rfl, ih1 i]
          by_cases hj : i = 0
          · subst hj
            simp [chainClosed]
          · have g1 : 1 ≤ i ∧ i ≤ i := by omega
            have g2 : 1 ≤ i ∧ i ≤ i + 1 := by omega
            have g3 : ¬(i + 1 ≤ i) := by omega
            have g4 : i + 1 ≤ i + 1 := by omega
            simp [chainClosed, hj, g1, g2, g3, g4]
        · rw [if_neg h2, ih1 i]
          by_cases h0 : i = 0
          · subst h0
            have t1 : 1 ≤ j := by omega
            have t2 : 1 ≤ j + 1 := by omega
            simp [chainClosed, t1, t2]
          · by_cases hle : 1 ≤ i ∧ i ≤ j
            · have c1 : i + 1 ≤ j := by omega
              have c2 : 1 ≤ i ∧ i ≤ j + 1 := by omega
              have c3 : i + 1 ≤ j + 1 := by omega
              simp [chainClosed, h0, hle, c1, c2, c3]
            · have d1 : ¬(1 ≤ i ∧ i ≤ j + 1) := by omega
              simp [chainClosed, h0, hle, d1]

/-- The bookkeeping loop `zdot(m+k) = z(k)` for `k = 0..L-1` writes exactly
the window `[m, m+L)` and leaves everything else untouched. -/
theorem sloop_foldl_char (z : ℕ → ℚ) (m : ℕ) (g : ℕ → ℚ) :
    ∀ (L : ℕ) (i : ℕ),
      (List.foldl (fun acc k => Function.update acc (m + k) (z k)) g (List.range L)) i
        = if m ≤ i ∧ i < m + L then z (i - m) else g i := by
  intro L
  induction L with
  | zero =>
    intro i
    have hno : ¬(m ≤ i ∧ i < m) := by omega
    simp [hno]
  | succ L ih =>
    intro i
    rw [List.range_succ, List.foldl_append, List.foldl_cons, List.foldl_nil,
      Function.update_apply, ih i]
    by_cases h1 : i = m + L
    · subst h1
      have hin : m ≤ m + L ∧ m + L < m + (L + 1) := by omega
      have hnm : ¬(m ≤ m + L ∧ m + L < m + L) := by omega
      have hsub : m + L - m = L := by omega
      simp [hin, hnm, hsub]
    · have hiff : (m ≤ i ∧ i < m + (L + 1)) ↔ (m ≤ i ∧ i < m + L) := by omega
      simp [h1, hiff]

/-- C2: once the kinetic-energy cache `KE`, chain count `m ≥ 1`, bath
temperature `T > 0`, relaxation time `τ > 0` and
`N = max(1, numGeneralizedSpeeds − numAccelerationConstraints)` are given,
`realizeDynamics` writes exactly these auxiliary derivatives (with
`Eb = Kb·T/2`, `E = KE/N`, `oot2 = 1/τ²`): slot 0 ends at
`(E/Eb − 1)·oot2`, minus `z₀·z₁` when `m ≥ 2`; slot `k ∈ [1, m−1]` ends at
`Ndofs·z_{k−1}² − oot2` with `Ndofs = N` for `k = 1` and 1 for `k > 1`, minus
`z_k·z_{k+1}` when iteration `k+1` also ran; slots `m..2m−1` hold
`ṡ_k = z_k`; every other derivative slot is untouched. -/
theorem thermostat_realizeDynamics_law (Kb : ℚ) (s : Thermostat.State)
    (hm : 1 ≤ s.numChains) (_hT : 0 < s.bathTemp) (_ht : 0 < s.relaxationTime) :
    ((Thermostat.realizeDynamics Kb s).zdot 0
        = (s.ke / (Thermostat.getNumDOFs s : ℚ) / (Kb * s.bathTemp / 2) - 1)
            * (1 / (s.relaxationTime * s.relaxationTime))
          - (if 1 < s.numChains.toNat then s.zvals 0 * s.zvals 1 else 0))
  ∧ (∀ k, 1 ≤ k → k < s.numChains.toNat →
        (Thermostat.realizeDynamics Kb s).zdot k
          = (if k = 1 then (Thermostat.getNumDOFs s : ℚ) else 1)
              * (s.zvals (k - 1) * s.zvals (k - 1))
            - 1 / (s.relaxationTime * s.relaxationTime)
            - (if k + 1 < s.numChains.toNat then s.zvals k * s.zvals (k + 1) else 0))
  ∧ (∀ k, k < s.numChains.toNat →
        (Thermostat.realizeDynamics Kb s).zdot (s.numChains.toNat + k) = s.zvals k)
  ∧ (∀ i, 2 * s.numChains.toNat ≤ i →
        (Thermostat.realizeDynamics Kb s).zdot i = s.zdot i) := by
  have hm1 : 1 ≤ s.numChains.toNat := by omega
  have key : ∀ i, (Thermostat.realizeDynamics Kb s).zdot i
      = if s.numChains.toNat ≤ i ∧ i < s.numChains.toNat + s.numChains.toNat
          then s.zvals (i - s.numChains.toNat)
          else chainClosed (Thermostat.getNumDOFs s : ℚ)
            (1 / (s.relaxationTime * s.relaxationTime))
            ((s.ke / (Thermostat.getNumDOFs s : ℚ) / (Kb * s.bathTemp / 2) - 1)
              * (1 / (s.relaxationTime * s.relaxationTime)))
            s.zvals s.zdot (s.numChains.toNat - 1) i := by
    intro i
    show (List.foldl
        (fun acc k => Function.update acc (s.numChains.toNat + k) (s.zvals k))
        (List.foldl
          (Thermostat.chainStep s.zvals (1 / (s.relaxationTime * s.relaxationTime)))
          (Function.update s.zdot 0
            ((s.ke / (Thermostat.getNumDOFs s : ℚ) / (Kb * s.bathTemp / 2) - 1)
              * (1 / (s.relaxationTime * s.relaxationTime))),
           (Thermostat.getNumDOFs s : ℚ))
          (List.range' 1 (s.numChains.toNat - 1))).1
        (List.range s.numChains.toNat)) i = _
    rw [sloop_foldl_char,
      (chain_foldl_char s.zvals (1 / (s.relaxationTime * s.relaxationTime))
        (Thermostat.getNumDOFs s : ℚ)
        ((s.ke / (Thermostat.getNumDOFs s : ℚ) / (Kb * s.bathTemp / 2) - 1)
          * (1 / (s.relaxationTime * s.relaxationTime)))
        s.zdot (s.numChains.toNat - 1)).2 i]
  refine ⟨?_, ?_, ?_, ?_⟩
  · rw [key 0]
    have hno : ¬(s.numChains.toNat ≤ 0
        ∧ 0 < s.numChains.toNat + s.numChains.toNat) := by omega
    rw [if_neg hno]
    simp only [chainClosed, if_pos rfl, eq_self_iff_true, if_true]
    by_cases h2 : 1 < s.numChains.toNat
    · rw [if_pos (by omega : 1 ≤ s.numChains.toNat - 1), if_pos h2]
    · rw [if_neg (by omega : ¬(1 ≤ s.numChains.toNat - 1)), if_neg h2, sub_zero]
  · intro k hk1 hk2
    rw [key k]
    have hno : ¬(s.numChains.toNat ≤ k
        ∧ k < s.numChains.toNat + s.numChains.toNat) := by omega
    rw [if_neg hno]
    simp only [chainClosed]
    rw [if_neg (by omega : ¬(k = 0)),
      if_pos (⟨hk1, by omega⟩ : 1 ≤ k ∧ k ≤ s.numChains.toNat - 1)]
    by_cases hc : k + 1 < s.numChains.toNat
    · rw [if_pos (by omega : k + 1 ≤ s.numChains.toNat - 1), if_pos hc]
    · rw [if_neg (by omega : ¬(k + 1 ≤ s.numChains.toNat - 1)), if_neg hc]
  · intro k hk
    rw [key (s.numChains.toNat + k)]
    have hyes : s.numChains.toNat ≤ s.numChains.toNat + k
        ∧ s.numChains.toNat + k < s.numChains.toNat + s.numChains.toNat := by omega
    rw [if_pos hyes]
    congr 1
    omega
  · intro i hi
    rw [key i]
    have hno : ¬(s.numChains.toNat ≤ i
        ∧ i < s.numChains.toNat + s.numChains.toNat) := by omega
    rw [if_neg hno]
    simp only [chainClosed]
    rw [if_neg (by omega : ¬(i = 0)),
      if_neg (by omega : ¬(1 ≤ i ∧ i ≤ s.numChains.toNat - 1))]

/-- C2, witness: the derivative law applied to the two-chain sample state
with `Kb = 1`. -/
theorem thermostat_realizeDynamics_law_witness :
    ((Thermostat.realizeDynamics 1 sampleThermoState2).zdot 0
        = (sampleThermoState2.ke / (Thermostat.getNumDOFs sampleThermoState2 : ℚ)
            / (1 * sampleThermoState2.bathTemp / 2) - 1)
            * (1 / (sampleThermoState2.relaxationTime * sampleThermoState2.relaxationTime))
          - (if 1 < sampleThermoState2.numChains.toNat
              then sampleThermoState2.zvals 0 * sampleThermoState2.zvals 1 else 0))
  ∧ (∀ k, 1 ≤ k → k < sampleThermoState2.numChains.toNat →
        (Thermostat.realizeDynamics 1 sampleThermoState2).zdot k
          = (if k = 1 then (Thermostat.getNumDOFs sampleThermoState2 : ℚ) else 1)
              * (sampleThermoState2.zvals (k - 1) * sampleThermoState2.zvals (k - 1))
            - 1 / (sampleThermoState2.relaxationTime * sampleThermoState2.relaxationTime)
            - (if k + 1 < sampleThermoState2.numChains.toNat
                then sampleThermoState2.zvals k * sampleThermoState2.zvals (k + 1) else 0))
  ∧ (∀ k, k < sampleThermoState2.numChains.toNat →
        (Thermostat.realizeDynamics 1 sampleThermoState2).zdot
            (sampleThermoState2.numChains.toNat + k)
          = sampleThermoState2.zvals k)
  ∧ (∀ i, 2 * sampleThermoState2.numChains.toNat ≤ i →
        (Thermostat.realizeDynamics 1 sampleThermoState2).zdot i
          = sampleThermoState2.zdot i) :=
  thermostat_realizeDynamics_law 1 sampleThermoState2
    (by norm_num [sampleThermoState2]) (by norm_num [sampleThermoState2])
    (by norm_num [sampleThermoState2])

/-- C10, witness: the round trip on the sample one-chain state with the
vector `[7, 8]`. -/
theorem thermostat_chainState_roundtrip_witness :
    (∃ s1, Thermostat.setChainState sampleThermoState [7, 8] = Except.ok s1
        ∧ Thermostat.getChainState s1 = [7, 8])
  ∧ Thermostat.getChainState (Thermostat.initializeChainState sampleThermoState)
      = List.replicate (2 * sampleThermoState.numChains.toNat) 0 :=
  thermostat_chainState_roundtrip sampleThermoState [7, 8]
    (by norm_num [Thermostat.getNumChains, sampleThermoState])

end Simbody
